import Mathlib

/-! TLS 1.3 session-ticket demo: server, client and test scenarios

A shallow embedding of the three Go source files

* `server/server.go`  (namespace `Server`)
* `client/client.go`  (namespace `Client`)
* `tests/client_server_test.go` (namespace `Tests`)

Library calls whose result depends on the outside world (reading a file,
loading a key pair, the random source, an HTTPS request, reading a response
body) are inputs of the model: every program takes an environment record that
fixes the outcome of each such call.  `log.Fatalf` ends the process and is
the last event of a run; `t.Fatalf` ends the test, followed only by the
deferred `Close` calls.
-/

namespace TLSDemo

/-! ## Shared data model -/

/-- A Go `byte`. -/
abbrev Byte := UInt8

/-- A Go `error` value (non-nil), identified by its text. -/
abbrev Error := String

/-- The Go builtin `make([]byte, n)` : a slice of `n` zero bytes. -/
def make (n : Nat) : List Byte := List.replicate n 0

/-- The Go builtin `copy(dst, src)` : the first `min (len dst) (len src)` elements of
`dst` are overwritten by those of `src`; the rest of `dst` is kept.  The value is the
updated `dst`. -/
def copy (dst src : List Byte) : List Byte :=
  src.take (min dst.length src.length) ++ dst.drop (min dst.length src.length)

/-- A Go `[32]byte` : exactly 32 bytes. -/
structure Array32 where
  bytes : List Byte
  size_eq : bytes.length = 32
deriving DecidableEq

/-- The zero value of `[32]byte` (`var array [32]byte`). -/
def Array32.zero : Array32 := ⟨make 32, by simp [make]⟩

/-- Indexing `array[i]` for `i < 32`. -/
def Array32.get (a : Array32) (i : Fin 32) : Byte :=
  a.bytes.get ⟨i.val, by rw [a.size_eq]; exact i.isLt⟩

/-- The statement `copy(array[:], b)` on a `[32]byte`. -/
def Array32.copyFrom (a : Array32) (b : List Byte) : Array32 :=
  ⟨copy a.bytes b, by
    have h := a.size_eq
    simp only [copy, List.length_append, List.length_take, List.length_drop]
    omega⟩

/-- The TLS protocol version constants of `crypto/tls` (a `uint16`). -/
def VersionTLS13 : Nat := 0x0304

/-! ### TLS and HTTP configuration records -/

/-- A `tls.Certificate` : the certificate chain (DER blocks) of a loaded key pair. -/
structure Certificate where
  chain : List (List Byte)
deriving DecidableEq

/-- An `x509.CertPool` : the certificates it holds. -/
structure CertPool where
  certs : List (List Byte)
deriving DecidableEq

/-- The call `x509.NewCertPool()` : a fresh empty pool. -/
def NewCertPool : CertPool := ⟨[]⟩

/-- The fields of `tls.Config` the programs set, and `ClientSessionCache`, which none of
them sets (`none` is Go's `nil`; `some n` is an LRU cache of capacity `n`).  A version of
`0` is Go's zero value, that is, the field is unset. -/
structure Config where
  MinVersion : Nat := 0
  MaxVersion : Nat := 0
  Certificates : List Certificate := []
  RootCAs : Option CertPool := none
  ClientSessionCache : Option Nat := none
  sessionTicketKeys : List Array32 := []
deriving DecidableEq

/-- The method `(*tls.Config).SetSessionTicketKeys` : installs the given keys. -/
def Config.SetSessionTicketKeys (c : Config) (keys : List Array32) : Config :=
  { c with sessionTicketKeys := keys }

/-- Protocol-version acceptance of a `tls.Config`, the rule `crypto/tls` applies to the
two version fields: `v` is accepted when `MinVersion <= v` and `MaxVersion` is unset or
`v <= MaxVersion`. -/
def Config.accepts (c : Config) (v : Nat) : Bool :=
  decide (c.MinVersion ≤ v) && (c.MaxVersion == 0 || decide (v ≤ c.MaxVersion))

/-- An incoming `http.Request` : its method, its request target (`RequestURI`), its
headers and its body. -/
structure Request where
  method : String
  path : String
  headers : List (String × String)
  body : List Byte
deriving DecidableEq

/-- The `http.ResponseWriter` that `net/http` hands to a handler: the method of the
request it answers, and the body bytes sent so far. -/
structure ResponseWriter where
  reqMethod : String
  body : List Byte
deriving DecidableEq

/-- The method `w.Write(p)` of the `net/http` response writer: `p` is appended to the
response body, except that the writes of the answer to a `HEAD` request are eaten (a
`HEAD` response has no body). -/
def ResponseWriter.Write (w : ResponseWriter) (p : List Byte) : ResponseWriter :=
  if w.reqMethod = "HEAD" then w else { w with body := w.body ++ p }

/-- The conversion `[]byte(s)` of a Go string : its UTF-8 bytes. -/
def bytesOf (s : String) : List Byte := s.toUTF8.data.toList

/-- An `http.Server` value. -/
structure HttpServer where
  Addr : String
  TLSConfig : Config
  Handler : ResponseWriter → Request → ResponseWriter

/-- The method `(*x509.CertPool).AppendCertsFromPEM` : the certificates found in the PEM
data are added to the pool.  The PEM decoder is the library's; it is a parameter. -/
def CertPool.AppendCertsFromPEM (pemCerts : List Byte → List (List Byte))
    (pool : CertPool) (pemData : List Byte) : CertPool :=
  ⟨pool.certs ++ pemCerts pemData⟩

/-- An `http.Client` with a custom transport: its TLS client configuration. -/
structure HttpClient where
  TLSClientConfig : Config
deriving DecidableEq

/-- An `http.Response` as far as the programs look at it or could look at it: what
`io.ReadAll(resp.Body)` yields, and `resp.TLS.DidResume`, whether the connection resumed
an earlier session. -/
structure Response where
  Body : Except Error (List Byte)
  DidResume : Bool

/-- The client side of `crypto/tls` in `client.Get` : `answer` is what the network and
the server give back, its `DidResume` telling whether the server takes up a session the
client offers to resume.  The client offers one only from its `ClientSessionCache`, so
without a cache the connection never resumes. -/
def HttpClient.Get (client : HttpClient) (answer : Except Error Response) :
    Except Error Response :=
  match answer with
  | .error err => .error err
  | .ok resp =>
    .ok { resp with DidResume := resp.DidResume && client.TLSClientConfig.ClientSessionCache.isSome }

namespace Server

/-- `to32ByteArray` of `server/server.go`. -/
def to32ByteArray (b : List Byte) : Array32 :=
  let array := Array32.zero
  let array := array.copyFrom b
  array

/-- What the server process does, in order. -/
inductive Event where
  | loadX509KeyPair (certFile keyFile : String)
  | randRead (len : Nat)
  | setSessionTicketKeys (keys : List Array32)
  | println (msg : String)
  | listenAndServeTLS (server : HttpServer) (certFile keyFile : String)
  | fatalf (format : String) (err : Error)

/-- The event is a call of `SetSessionTicketKeys`; its argument. -/
def Event.ticketKeys? : Event → Option (List Array32)
  | .setSessionTicketKeys keys => some keys
  | _ => none

/-- The event is the call of `ListenAndServeTLS`. -/
def Event.isListen : Event → Bool
  | .listenAndServeTLS _ _ _ => true
  | _ => false

/-- The outside world of the server process: the outcome of loading the key pair, the
bytes the random source yields at the `k`-th call of `rand.Read` (or its error), and the
error `ListenAndServeTLS` returns with, if it ever returns. -/
structure Env where
  loadX509KeyPair : String → String → Except Error Certificate
  randRead : Nat → Except Error (List Byte)
  listenAndServeTLS : Option Error

/-- The handler closure of `main` (the `http.HandlerFunc`). -/
def handler (w : ResponseWriter) (_r : Request) : ResponseWriter :=
  w.Write (bytesOf "Hello, secure world with custom session ticket keys!")

/-- The `tls.Config` literal of `main`. -/
def tlsConfig (cert : Certificate) : Config :=
  { MinVersion := VersionTLS13, Certificates := [cert] }

/-- The `http.Server` literal of `main`. -/
def server (tlsConfig : Config) : HttpServer :=
  { Addr := ":8443", TLSConfig := tlsConfig, Handler := handler }

/-- The function `main` of `server/server.go`, as the sequence of its events. -/
def main (env : Env) : List Event :=
  let load := Event.loadX509KeyPair "certs/server.crt" "certs/server.key"
  match env.loadX509KeyPair "certs/server.crt" "certs/server.key" with
  | .error err => [load, .fatalf "Failed to load server certificate and key: %v" err]
  | .ok cert =>
    let key1 := make 32
    let key2 := make 32
    match env.randRead 0 with
    | .error err =>
      [load, .randRead key1.length, .fatalf "Failed to generate session ticket key1: %v" err]
    | .ok r1 =>
      let key1 := copy key1 r1
      match env.randRead 1 with
      | .error err =>
        [load, .randRead key1.length, .randRead key2.length,
          .fatalf "Failed to generate session ticket key2: %v" err]
      | .ok r2 =>
        let key2 := copy key2 r2
        let tlsConfig := tlsConfig cert
        let keys := [to32ByteArray key1, to32ByteArray key2]
        let tlsConfig := tlsConfig.SetSessionTicketKeys keys
        let server := server tlsConfig
        [load, .randRead key1.length, .randRead key2.length, .setSessionTicketKeys keys,
          .println "Starting server on https://localhost:8443",
          .listenAndServeTLS server "" ""] ++
        match env.listenAndServeTLS with
        | none => []
        | some err => [.fatalf "Server failed: %v" err]

/-- The arguments of all `SetSessionTicketKeys` calls of a run, as byte lists. -/
def ticketKeysPassed (run : List Event) : List (List (List Byte)) :=
  run.filterMap fun e => (e.ticketKeys?).map fun keys => keys.map Array32.bytes

/-- An environment in which every step succeeds. -/
def envOk : Env where
  loadX509KeyPair := fun _ _ => .ok ⟨[[48, 130]]⟩
  randRead := fun k => .ok (List.replicate 32 (if k = 0 then 7 else 9))
  listenAndServeTLS := none

end Server

namespace Client

/-- What the client process does, in order. -/
inductive Event where
  | readFile (path : String)
  | get (client : HttpClient) (url : String)
  | readAll
  | println (msg : String) (body : List Byte)
  | close
  | fatalf (format : String) (err : Error)
deriving DecidableEq

/-- The event is a request (`client.Get`). -/
def Event.isGet : Event → Bool
  | .get _ _ => true
  | _ => false

/-- The event is a `log.Fatalf`. -/
def Event.isFatal : Event → Bool
  | .fatalf _ _ => true
  | _ => false

/-- The outside world of the client process: the outcome of reading a file, the library's
PEM decoder, and the outcome of the `k`-th call of `client.Get`. -/
structure Env where
  readFile : String → Except Error (List Byte)
  pemCerts : List Byte → List (List Byte)
  get : Nat → Except Error Response

/-- The function `sendRequest` of `client/client.go`, called as the `k`-th request: its
events, and whether it ended the process (`log.Fatalf`).  The deferred `Close` runs when
the function returns, not when the process exits. -/
def sendRequest (env : Env) (k : Nat) (client : HttpClient) : List Event × Bool :=
  match env.get k with
  | .error err => ([.get client "https://localhost:8443", .fatalf "Request failed: %v" err], true)
  | .ok resp =>
    match resp.Body with
    | .error err =>
      ([.get client "https://localhost:8443", .readAll,
        .fatalf "Failed to read response body: %v" err], true)
    | .ok body =>
      ([.get client "https://localhost:8443", .readAll,
        .println "Response from server:" body, .close], false)

/-- The `tls.Config` literal of `main`. -/
def tlsConfig (certPool : CertPool) : Config :=
  { MinVersion := VersionTLS13, MaxVersion := VersionTLS13, RootCAs := some certPool }

/-- The function `main` of `client/client.go`, as the sequence of its events. -/
def main (env : Env) : List Event :=
  let certPool := NewCertPool
  match env.readFile "certs/server.crt" with
  | .error err =>
    [.readFile "certs/server.crt", .fatalf "Unable to read server certificate: %v" err]
  | .ok serverCert =>
    let certPool := certPool.AppendCertsFromPEM env.pemCerts serverCert
    let tlsConfig := tlsConfig certPool
    let client : HttpClient := ⟨tlsConfig⟩
    let r1 := sendRequest env 0 client
    if r1.2 then .readFile "certs/server.crt" :: r1.1 else
    let r2 := sendRequest env 1 client
    if r2.2 then .readFile "certs/server.crt" :: (r1.1 ++ r2.1) else
    let r3 := sendRequest env 2 client
    .readFile "certs/server.crt" :: (r1.1 ++ r2.1 ++ r3.1)

/-- The number of requests a run issues. -/
def numRequests (run : List Event) : Nat := run.countP Event.isGet

/-- The requests of a run, in order. -/
def requests (run : List Event) : List Event := run.filter Event.isGet

/-- The `k`-th request succeeds: `Get` returns a response and its body can be read. -/
def requestOk (env : Env) (k : Nat) : Bool :=
  match env.get k with
  | .error _ => false
  | .ok resp =>
    match resp.Body with
    | .error _ => false
    | .ok _ => true

/-- The events of a run that follow its first `log.Fatalf`. -/
def afterFatal (run : List Event) : List Event :=
  (run.dropWhile fun e => !e.isFatal).tail

/-- The client `main` builds when the certificate file holds `serverCert`. -/
def clientOf (env : Env) (serverCert : List Byte) : HttpClient :=
  ⟨tlsConfig (NewCertPool.AppendCertsFromPEM env.pemCerts serverCert)⟩

/-- An environment in which the certificate file cannot be read while the server would
answer every request. -/
def envNoCert : Env where
  readFile := fun _ => .error "open certs/server.crt: no such file or directory"
  pemCerts := fun _ => []
  get := fun _ => .ok ⟨.ok (bytesOf "Hello"), false⟩

/-- An environment in which everything succeeds except the second request. -/
def envSecondFails : Env where
  readFile := fun _ => .ok [45, 45]
  pemCerts := fun pem => [pem]
  get := fun k => if k = 1 then .error "connection refused" else .ok ⟨.ok [72], false⟩

end Client

namespace Tests

/-- `to32ByteArray` of `tests/client_server_test.go`. -/
def to32ByteArray (b : List Byte) : Array32 :=
  let array := Array32.zero
  let array := array.copyFrom b
  array

/-- What a test does, in order; a `client.Get` call is recorded with what it returned. -/
inductive Event where
  | randRead (len : Nat)
  | setSessionTicketKeys (keys : List Array32)
  | get (client : HttpClient) (url : String) (result : Except Error Response)
  | readAll
  | sleep (seconds : Nat)
  | printf (format : String) (body : List Byte)
  | close
  | fatalf (format : String) (err : Error)

/-- The event is a call of `client.Get`; what it returned. -/
def Event.getResult? : Event → Option (Except Error Response)
  | .get _ _ result => some result
  | _ => none

/-- The event is a `t.Fatalf`. -/
def Event.isFatal : Event → Bool
  | .fatalf _ _ => true
  | _ => false

/-- The event is a call of `SetSessionTicketKeys`; its argument. -/
def Event.ticketKeys? : Event → Option (List Array32)
  | .setSessionTicketKeys keys => some keys
  | _ => none

/-- The outside world of a test: the outcome of reading a file, the library's PEM
decoder, the bytes the random source yields at the `k`-th call of `rand.Read` (or its
error), and what the network and the server give back to the `k`-th call of `client.Get`
(its `DidResume` : whether the server takes up a session the client offers to resume). -/
structure Env where
  readFile : String → Except Error (List Byte)
  pemCerts : List Byte → List (List Byte)
  randRead : Nat → Except Error (List Byte)
  get : Nat → Except Error Response

/-- The function `loadCertPool` : the Go pair `(*x509.CertPool, error)`, each component
`none` when it is `nil`. -/
def loadCertPool (env : Env) (certPath : String) : Option CertPool × Option Error :=
  let certPool := NewCertPool
  match env.readFile certPath with
  | .error err => (none, some err)
  | .ok serverCert =>
    let certPool := certPool.AppendCertsFromPEM env.pemCerts serverCert
    (some certPool, none)

/-- The `tls.Config` literal of the tests. -/
def tlsConfig (certPool : Option CertPool) : Config :=
  { MinVersion := VersionTLS13, MaxVersion := VersionTLS13, RootCAs := certPool }

/-- The function `TestSessionResumption`, as the sequence of its events.  A `t.Fatalf`
ends the test after the deferred `Close` calls have run. -/
def TestSessionResumption (env : Env) : List Event :=
  match loadCertPool env "../certs/server.crt" with
  | (_, some err) => [.fatalf "Failed to load server certificate: %v" err]
  | (certPool, none) =>
    let tlsConfig := tlsConfig certPool
    let client : HttpClient := ⟨tlsConfig⟩
    match client.Get (env.get 0) with
    | .error err =>
      [.get client "https://localhost:8443" (.error err),
        .fatalf "Initial request failed: %v" err]
    | .ok resp =>
      [.get client "https://localhost:8443" (.ok resp), .readAll, .sleep 2] ++
      match client.Get (env.get 1) with
      | .error err =>
        [.get client "https://localhost:8443" (.error err),
          .fatalf "Session resumption request failed: %v" err, .close]
      | .ok resp2 =>
        match resp2.Body with
        | .error err =>
          [.get client "https://localhost:8443" (.ok resp2), .readAll,
            .fatalf "Failed to read response body: %v" err, .close, .close]
        | .ok body =>
          [.get client "https://localhost:8443" (.ok resp2), .readAll,
            .printf "Session resumption response: %s" body, .close, .close]

/-- The function `TestRandomSessionTicket`, as the sequence of its events.  The client
holds a pointer to `tlsConfig`, so each request is made with the configuration as it is
at that moment. -/
def TestRandomSessionTicket (env : Env) : List Event :=
  match loadCertPool env "../certs/server.crt" with
  | (_, some err) => [.fatalf "Failed to load server certificate: %v" err]
  | (certPool, none) =>
    let key := make 32
    match env.randRead 0 with
    | .error err =>
      [.randRead key.length, .fatalf "Failed to generate random session ticket key: %v" err]
    | .ok r =>
      let key := copy key r
      let tlsConfig := tlsConfig certPool
      let tlsConfig := tlsConfig.SetSessionTicketKeys [to32ByteArray key]
      let client : HttpClient := ⟨tlsConfig⟩
      [.randRead key.length, .setSessionTicketKeys [to32ByteArray key]] ++
      match client.Get (env.get 0) with
      | .error err =>
        [.get client "https://localhost:8443" (.error err),
          .fatalf "Initial request failed: %v" err]
      | .ok resp =>
        let newKey := make 32
        [.get client "https://localhost:8443" (.ok resp), .readAll] ++
        match env.randRead 1 with
        | .error err =>
          [.randRead newKey.length,
            .fatalf "Failed to generate a new session ticket key: %v" err, .close]
        | .ok r2 =>
          let newKey := copy newKey r2
          let tlsConfig := tlsConfig.SetSessionTicketKeys [to32ByteArray newKey]
          let client : HttpClient := ⟨tlsConfig⟩
          [.randRead newKey.length, .setSessionTicketKeys [to32ByteArray newKey]] ++
          match client.Get (env.get 1) with
          | .error err =>
            [.get client "https://localhost:8443" (.error err),
              .fatalf "Session resumption request failed: %v" err, .close]
          | .ok resp2 =>
            match resp2.Body with
            | .error err =>
              [.get client "https://localhost:8443" (.ok resp2), .readAll,
                .fatalf "Failed to read response body: %v" err, .close, .close]
            | .ok body =>
              [.get client "https://localhost:8443" (.ok resp2), .readAll,
                .printf "Response after changing session ticket key: %s" body,
                .close, .close]

/-- The verdict of a test run: it passes when `t.Fatalf` was never called. -/
def passed (run : List Event) : Bool := !run.any Event.isFatal

/-- What the `client.Get` calls of a run returned, in order. -/
def getResults (run : List Event) : List (Except Error Response) :=
  run.filterMap Event.getResult?

/-- The second request of the run got a response on a connection that resumed an
earlier session (`resp2.TLS.DidResume`). -/
def secondResumed (run : List Event) : Bool :=
  match (getResults run).drop 1 with
  | .ok resp2 :: _ => resp2.DidResume
  | _ => false

/-- The second request of the test got a response whose body could be read. -/
def secondAnswered (env : Env) : Bool :=
  match env.get 1 with
  | .error _ => false
  | .ok resp2 => resp2.Body.isOk

/-- The key arrays installed by the `SetSessionTicketKeys` calls of a run, in order. -/
def ticketKeysPassed (run : List Event) : List (List Array32) :=
  run.filterMap Event.ticketKeys?

/-- An environment in which every step succeeds; `resumed` says whether the server takes
up, at the second request, a session the client offers to resume. -/
def envAllOk (resumed : Bool) : Env where
  readFile := fun _ => .ok [45, 45, 45]
  pemCerts := fun pem => [pem]
  randRead := fun k => .ok (List.replicate 32 (if k = 0 then 1 else 2))
  get := fun k => .ok ⟨.ok [72, 105], if k = 0 then false else resumed⟩

end Tests

/-! ## Facts about `copy` and `to32ByteArray` -/

theorem copy_length (dst src : List Byte) : (copy dst src).length = dst.length := by
  simp only [copy, List.length_append, List.length_take, List.length_drop]
  omega

theorem copy_make_bytes (n : Nat) (b : List Byte) :
    copy (make n) b = b.take n ++ List.replicate (n - b.length) 0 := by
  simp only [copy, make, List.length_replicate, List.drop_replicate]
  rcases Nat.le_total n b.length with h | h
  · rw [Nat.min_eq_left h, Nat.sub_self, Nat.sub_eq_zero_of_le h]
  · rw [Nat.min_eq_right h, List.take_of_length_le (Nat.le_refl _), List.take_of_length_le h]

theorem copy_make_full (n : Nat) (b : List Byte) (h : b.length = n) :
    copy (make n) b = b := by
  rw [copy_make_bytes, List.take_of_length_le (Nat.le_of_eq h), h, Nat.sub_self]
  simp

theorem to32ByteArray_bytes (b : List Byte) :
    (Server.to32ByteArray b).bytes = b.take 32 ++ List.replicate (32 - b.length) 0 := by
  show copy (make 32) b = _
  exact copy_make_bytes 32 b

theorem to32ByteArray_full (b : List Byte) (h : b.length = 32) :
    (Server.to32ByteArray b).bytes = b := by
  show copy (make 32) b = _
  exact copy_make_full 32 b h

theorem tests_to32ByteArray_full (b : List Byte) (h : b.length = 32) :
    (Tests.to32ByteArray b).bytes = b := by
  show copy (make 32) b = _
  exact copy_make_full 32 b h

/-! ## The client's request sequence -/

theorem client_numRequests (env : Client.Env) (serverCert : List Byte)
    (hread : env.readFile "certs/server.crt" = .ok serverCert) :
    Client.numRequests (Client.main env)
      = if Client.requestOk env 0 then (if Client.requestOk env 1 then 3 else 2) else 1 := by
  rcases h0 : env.get 0 with e0 | ⟨(e0 | b0), d0⟩ <;>
  rcases h1 : env.get 1 with e1 | ⟨(e1 | b1), d1⟩ <;>
  rcases h2 : env.get 2 with e2 | ⟨(e2 | b2), d2⟩ <;>
  simp [Client.main, Client.sendRequest, Client.numRequests, Client.requestOk,
    Client.Event.isGet, hread, h0, h1, h2]

theorem client_requests (env : Client.Env) (serverCert : List Byte)
    (hread : env.readFile "certs/server.crt" = .ok serverCert) :
    Client.requests (Client.main env)
      = List.replicate (Client.numRequests (Client.main env))
          (.get (Client.clientOf env serverCert) "https://localhost:8443") := by
  rcases h0 : env.get 0 with e0 | ⟨(e0 | b0), d0⟩ <;>
  rcases h1 : env.get 1 with e1 | ⟨(e1 | b1), d1⟩ <;>
  rcases h2 : env.get 2 with e2 | ⟨(e2 | b2), d2⟩ <;>
  simp [Client.main, Client.sendRequest, Client.numRequests, Client.requests,
    Client.clientOf, Client.Event.isGet, List.replicate, hread, h0, h1, h2]

theorem client_afterFatal (env : Client.Env) (serverCert : List Byte)
    (hread : env.readFile "certs/server.crt" = .ok serverCert) :
    Client.afterFatal (Client.main env) = [] := by
  rcases h0 : env.get 0 with e0 | ⟨(e0 | b0), d0⟩ <;>
  rcases h1 : env.get 1 with e1 | ⟨(e1 | b1), d1⟩ <;>
  rcases h2 : env.get 2 with e2 | ⟨(e2 | b2), d2⟩ <;>
  simp [Client.main, Client.sendRequest, Client.afterFatal, Client.Event.isFatal,
    hread, h0, h1, h2]

/-! ## The claims -/

/-- C9: for every byte slice `b` and every index `i < 32`, `to32ByteArray(b)[i]` is `b[i]`
when `i < len(b)` and `0` otherwise (zero padding on the right, truncation to the first
32 bytes); the function is total, and the server's copy and the tests' copy agree on every
input. -/
theorem C9_to32ByteArray_index (b : List Byte) (i : Fin 32) :
    (Server.to32ByteArray b).get i
        = (if h : i.val < b.length then b.get ⟨i.val, h⟩ else 0)
      ∧ (Server.to32ByteArray b).bytes = b.take 32 ++ List.replicate (32 - b.length) 0
      ∧ Server.to32ByteArray b = Tests.to32ByteArray b := by
  refine ⟨?_, to32ByteArray_bytes b, rfl⟩
  have hi := i.isLt
  simp only [Array32.get, List.get_eq_getElem, to32ByteArray_bytes]
  by_cases h : i.val < b.length
  · rw [dif_pos h, List.getElem_append_left (by simp; omega)]
    simp
  · rw [dif_neg h, List.getElem_append_right (by simp; omega)]
    simp

/-- C1: when the key pair loads and the two `rand.Read` calls yield the 32-byte outputs
`r1` and `r2`, the server `main` calls `SetSessionTicketKeys` exactly once, with a list of
exactly two keys, the first byte-for-byte `r1` and the second byte-for-byte `r2`;
`to32ByteArray` returns a 32-byte slice unchanged. -/
theorem C1_server_ticket_keys (env : Server.Env) (cert : Certificate) (r1 r2 : List Byte)
    (hload : env.loadX509KeyPair "certs/server.crt" "certs/server.key" = .ok cert)
    (h1 : env.randRead 0 = .ok r1) (h2 : env.randRead 1 = .ok r2)
    (hlen1 : r1.length = 32) (hlen2 : r2.length = 32) :
    Server.ticketKeysPassed (Server.main env) = [[r1, r2]]
      ∧ (Server.to32ByteArray r1).bytes = r1 ∧ (Server.to32ByteArray r2).bytes = r2 := by
  refine ⟨?_, to32ByteArray_full r1 hlen1, to32ByteArray_full r2 hlen2⟩
  have e1 : copy (make 32) r1 = r1 := copy_make_full 32 r1 hlen1
  have e2 : copy (make 32) r2 = r2 := copy_make_full 32 r2 hlen2
  simp only [Server.main, hload, h1, h2, e1, e2]
  cases env.listenAndServeTLS <;>
    simp [Server.ticketKeysPassed, Server.Event.ticketKeys?, to32ByteArray_full, hlen1, hlen2]

theorem C1_server_ticket_keys_witness :
    Server.ticketKeysPassed (Server.main Server.envOk)
        = [[List.replicate 32 7, List.replicate 32 9]]
      ∧ (Server.to32ByteArray (List.replicate 32 7)).bytes = List.replicate 32 7
      ∧ (Server.to32ByteArray (List.replicate 32 9)).bytes = List.replicate 32 9 :=
  C1_server_ticket_keys Server.envOk ⟨[[48, 130]]⟩ (List.replicate 32 7) (List.replicate 32 9)
    rfl rfl rfl (by decide) (by decide)

/-- C8: on byte slices of length exactly 32, `to32ByteArray(key) = to32ByteArray(newKey)`
if and only if `key = newKey`; hence in `TestRandomSessionTicket`, when every step up to
the second key generation succeeds with the 32-byte keys `key` and `newKey`, the two
`SetSessionTicketKeys` calls install `[to32ByteArray(key)]` and then
`[to32ByteArray(newKey)]`, and the two installed lists differ whenever `key` and `newKey`
differ. -/
theorem C8_to32ByteArray_injective (env : Tests.Env) (pem key newKey : List Byte)
    (resp : Response)
    (hread : env.readFile "../certs/server.crt" = .ok pem)
    (hk : env.randRead 0 = .ok key) (hget : env.get 0 = .ok resp)
    (hnk : env.randRead 1 = .ok newKey)
    (hlen : key.length = 32) (hlen2 : newKey.length = 32) :
    (Tests.to32ByteArray key = Tests.to32ByteArray newKey ↔ key = newKey)
      ∧ Tests.ticketKeysPassed (Tests.TestRandomSessionTicket env)
          = [[Tests.to32ByteArray key], [Tests.to32ByteArray newKey]]
      ∧ (key ≠ newKey → [Tests.to32ByteArray key] ≠ [Tests.to32ByteArray newKey]) := by
  have inj : Tests.to32ByteArray key = Tests.to32ByteArray newKey ↔ key = newKey := by
    constructor
    · intro h
      have hb := congrArg Array32.bytes h
      rwa [tests_to32ByteArray_full key hlen, tests_to32ByteArray_full newKey hlen2] at hb
    · intro h
      rw [h]
  refine ⟨inj, ?_, ?_⟩
  · have e1 : copy (make 32) key = key := copy_make_full 32 key hlen
    have e2 : copy (make 32) newKey = newKey := copy_make_full 32 newKey hlen2
    simp only [Tests.TestRandomSessionTicket, Tests.loadCertPool, HttpClient.Get, hread, hk,
      hget, hnk, e1, e2]
    cases env.get 1 with
    | error err => simp [Tests.ticketKeysPassed, Tests.Event.ticketKeys?]
    | ok resp2 =>
      rcases resp2 with ⟨body, resumed⟩
      cases body <;> simp [Tests.ticketKeysPassed, Tests.Event.ticketKeys?]
  · intro hne h
    exact hne (inj.mp (List.cons.inj h).1)

theorem C8_to32ByteArray_injective_witness :
    (Tests.to32ByteArray (List.replicate 32 1) = Tests.to32ByteArray (List.replicate 32 2)
        ↔ List.replicate 32 (1 : Byte) = List.replicate 32 2)
      ∧ Tests.ticketKeysPassed (Tests.TestRandomSessionTicket (Tests.envAllOk true))
          = [[Tests.to32ByteArray (List.replicate 32 1)],
              [Tests.to32ByteArray (List.replicate 32 2)]]
      ∧ (List.replicate 32 (1 : Byte) ≠ List.replicate 32 2 →
          [Tests.to32ByteArray (List.replicate 32 1)]
            ≠ [Tests.to32ByteArray (List.replicate 32 2)]) :=
  C8_to32ByteArray_injective (Tests.envAllOk true) [45, 45, 45] (List.replicate 32 1)
    (List.replicate 32 2) ⟨.ok [72, 105], false⟩ rfl rfl rfl rfl (by decide) (by decide)

/-- C6: the server `main` reaches `ListenAndServeTLS` if and only if loading the key
pair, generating key1 and generating key2 all succeed; when one of them fails the run
stops with `log.Fatalf` at the first failing step, none of the later steps is performed
and serving never starts. -/
theorem C6_server_serves_iff (env : Server.Env) :
    ((Server.main env).any Server.Event.isListen = true ↔
        (env.loadX509KeyPair "certs/server.crt" "certs/server.key").isOk = true
          ∧ (env.randRead 0).isOk = true ∧ (env.randRead 1).isOk = true)
      ∧ (∀ err, env.loadX509KeyPair "certs/server.crt" "certs/server.key" = .error err →
          Server.main env
            = [.loadX509KeyPair "certs/server.crt" "certs/server.key",
                .fatalf "Failed to load server certificate and key: %v" err])
      ∧ (∀ cert err, env.loadX509KeyPair "certs/server.crt" "certs/server.key" = .ok cert →
          env.randRead 0 = .error err →
          Server.main env
            = [.loadX509KeyPair "certs/server.crt" "certs/server.key", .randRead 32,
                .fatalf "Failed to generate session ticket key1: %v" err])
      ∧ (∀ cert r1 err, env.loadX509KeyPair "certs/server.crt" "certs/server.key" = .ok cert →
          env.randRead 0 = .ok r1 → env.randRead 1 = .error err →
          Server.main env
            = [.loadX509KeyPair "certs/server.crt" "certs/server.key", .randRead 32,
                .randRead 32, .fatalf "Failed to generate session ticket key2: %v" err]) := by
  refine ⟨?_, ?_, ?_, ?_⟩
  · unfold Server.main
    cases env.loadX509KeyPair "certs/server.crt" "certs/server.key" with
    | error e => simp [Server.Event.isListen, Except.isOk, Except.toBool]
    | ok cert =>
      cases env.randRead 0 with
      | error e => simp [Server.Event.isListen, Except.isOk, Except.toBool]
      | ok r1 =>
        cases env.randRead 1 with
        | error e => simp [Server.Event.isListen, Except.isOk, Except.toBool]
        | ok r2 => simp [Server.Event.isListen, Except.isOk, Except.toBool]
  · intro err h
    simp [Server.main, h]
  · intro cert err h h0
    simp [Server.main, h, h0, make]
  · intro cert r1 err h h0 h1
    simp [Server.main, h, h0, h1, make, copy_length]

/-- C7: the client configuration (`MinVersion = MaxVersion = TLS 1.3`) accepts a version
if and only if it is TLS 1.3 (`0x0304`); the server configuration (`MinVersion = TLS 1.3`,
with the ticket keys installed) accepts no version below TLS 1.3; hence a version
accepted by both is TLS 1.3. -/
theorem C7_tls13_only (certPool : CertPool) (cert : Certificate) (keys : List Array32)
    (v : Nat) :
    ((Client.tlsConfig certPool).accepts v = true ↔ v = 0x0304)
      ∧ (v < 0x0304 →
          ((Server.tlsConfig cert).SetSessionTicketKeys keys).accepts v = false)
      ∧ ((Client.tlsConfig certPool).accepts v = true →
          ((Server.tlsConfig cert).SetSessionTicketKeys keys).accepts v = true →
          v = 0x0304) := by
  have hc : (Client.tlsConfig certPool).accepts v = true ↔ v = 0x0304 := by
    simp only [Config.accepts, Client.tlsConfig, VersionTLS13, Bool.and_eq_true,
      Bool.or_eq_true, decide_eq_true_eq, beq_iff_eq]
    omega
  refine ⟨hc, ?_, fun h _ => hc.mp h⟩
  intro hv
  simp only [Config.accepts, Config.SetSessionTicketKeys, Server.tlsConfig, VersionTLS13,
    Bool.and_eq_false_imp, decide_eq_true_eq]
  omega

/-- C5: `loadCertPool` returns a non-nil error if and only if reading the file fails; then
the returned pool is nil and the error is the read error; when the read succeeds the
error is nil and the pool is the one obtained by appending the PEM certificates of the
file contents to a fresh empty pool. -/
theorem C5_loadCertPool (env : Tests.Env) (certPath : String) :
    ((Tests.loadCertPool env certPath).2 ≠ none ↔ (env.readFile certPath).isOk = false)
      ∧ (∀ err, env.readFile certPath = .error err →
          Tests.loadCertPool env certPath = (none, some err))
      ∧ (∀ data, env.readFile certPath = .ok data →
          Tests.loadCertPool env certPath
            = (some (CertPool.AppendCertsFromPEM env.pemCerts NewCertPool data), none)) := by
  refine ⟨?_, ?_, ?_⟩
  · unfold Tests.loadCertPool
    cases env.readFile certPath <;> simp [Except.isOk, Except.toBool]
  · intro err h
    simp [Tests.loadCertPool, h]
  · intro data h
    simp [Tests.loadCertPool, h]

/-- C2, as stated, fails: when the certificate file cannot be read, `main` stops before
its first request, so it issues no request at all although no request fails. -/
theorem C2_client_no_cert_no_request :
    (∀ k, Client.requestOk Client.envNoCert k = true)
      ∧ Client.numRequests (Client.main Client.envNoCert) = 0
      ∧ ¬ ((∀ k, k < 3 → Client.requestOk Client.envNoCert k = true) →
            Client.numRequests (Client.main Client.envNoCert) = 3) := by
  refine ⟨fun _ => rfl, by decide, ?_⟩
  intro h
  have h3 := h (fun _ _ => rfl)
  revert h3
  decide

/-- C2, amended: provided `certs/server.crt` is read successfully, the client `main`
issues its requests one after the other, each to `https://localhost:8443` and each with
the same client; it issues exactly 3 requests when every request succeeds, and otherwise
exactly `k` requests where `k` (1 to 3) is the position of the first request that fails
(at `Get` or at reading the body); nothing follows the `log.Fatalf` of a failed request.
When the certificate file cannot be read, no request is issued. -/
theorem C2_client_request_count (env : Client.Env) :
    (∀ serverCert, env.readFile "certs/server.crt" = .ok serverCert →
        Client.requests (Client.main env)
            = List.replicate (Client.numRequests (Client.main env))
                (.get (Client.clientOf env serverCert) "https://localhost:8443")
          ∧ ((∀ k, k < 3 → Client.requestOk env k = true) →
              Client.numRequests (Client.main env) = 3)
          ∧ (∀ k, k < 3 → (∀ j, j < k → Client.requestOk env j = true) →
              Client.requestOk env k = false →
              Client.numRequests (Client.main env) = k + 1)
          ∧ Client.afterFatal (Client.main env) = [])
      ∧ (∀ err, env.readFile "certs/server.crt" = .error err →
          Client.numRequests (Client.main env) = 0) := by
  constructor
  · intro serverCert hread
    have hn := client_numRequests env serverCert hread
    refine ⟨client_requests env serverCert hread, ?_, ?_,
      client_afterFatal env serverCert hread⟩
    · intro h
      rw [hn, h 0 (by omega), h 1 (by omega)]
      rfl
    · intro k hk hlt hf
      interval_cases k
      · rw [hn, hf]
        rfl
      · rw [hn, hlt 0 (by omega), hf]
        rfl
      · rw [hn, hlt 0 (by omega), hlt 1 (by omega)]
        rfl
  · intro err hread
    simp [Client.main, Client.numRequests, Client.Event.isGet, hread]

theorem C2_client_request_count_witness :
    (∀ serverCert, Client.envSecondFails.readFile "certs/server.crt" = .ok serverCert →
        Client.requests (Client.main Client.envSecondFails)
            = List.replicate (Client.numRequests (Client.main Client.envSecondFails))
                (.get (Client.clientOf Client.envSecondFails serverCert)
                  "https://localhost:8443")
          ∧ ((∀ k, k < 3 → Client.requestOk Client.envSecondFails k = true) →
              Client.numRequests (Client.main Client.envSecondFails) = 3)
          ∧ (∀ k, k < 3 → (∀ j, j < k → Client.requestOk Client.envSecondFails j = true) →
              Client.requestOk Client.envSecondFails k = false →
              Client.numRequests (Client.main Client.envSecondFails) = k + 1)
          ∧ Client.afterFatal (Client.main Client.envSecondFails) = [])
      ∧ (∀ err, Client.envSecondFails.readFile "certs/server.crt" = .error err →
          Client.numRequests (Client.main Client.envSecondFails) = 0) :=
  C2_client_request_count Client.envSecondFails

/-- C4: `TestSessionResumption` passes at an input where the second request, made after
the 2-second delay, did not resume the session of the first: the test passes exactly
when the certificate load, both requests and the second body read succeed, and its second
request never resumes, whatever the server offers. -/
theorem C4_resumption_test_ignores_resumption :
    Tests.secondResumed (Tests.TestSessionResumption (Tests.envAllOk false)) = false
      ∧ Tests.passed (Tests.TestSessionResumption (Tests.envAllOk false)) = true
      ∧ (∀ env : Tests.Env,
          (Tests.passed (Tests.TestSessionResumption env) = true ↔
            (env.readFile "../certs/server.crt").isOk = true
              ∧ (env.get 0).isOk = true ∧ Tests.secondAnswered env = true))
      ∧ ∀ env : Tests.Env, Tests.secondResumed (Tests.TestSessionResumption env) = false := by
  refine ⟨by decide, by decide, ?_, ?_⟩
  · intro env
    rcases hr : env.readFile "../certs/server.crt" with e | pem <;>
    rcases h0 : env.get 0 with e | resp <;>
    rcases h1 : env.get 1 with e | ⟨(e | body), d⟩ <;>
    simp [Tests.TestSessionResumption, Tests.loadCertPool, Tests.passed,
      Tests.secondAnswered, Tests.Event.isFatal, HttpClient.Get, Except.isOk, Except.toBool,
      hr, h0, h1]
  · intro env
    rcases hr : env.readFile "../certs/server.crt" with e | pem <;>
    rcases h0 : env.get 0 with e | resp <;>
    rcases h1 : env.get 1 with e | ⟨(e | body), d⟩ <;>
    simp [Tests.TestSessionResumption, Tests.loadCertPool, Tests.secondResumed,
      Tests.getResults, Tests.Event.getResult?, Tests.tlsConfig, HttpClient.Get, hr, h0, h1]

end TLSDemo
